import Mathlib

/-!
Verification of the `mix` sequence-based audio mixer (Go) against its
natural-language specification, via a shallow embedding of the source
files: the `mix` package facade (`mix.go`), the `bind` package, and the
demo together with `wav.Load`.  Parts of the engine that live outside the
provided sources (`lib/mix`, the `spec`, `opt` and WAV-reader packages)
are modelled from the specification and marked `Modelled from the spec`.
Go `float64` is embedded as `ℚ`, Go `int` as `ℤ`, and a Go panic as an
explicit `crashed` outcome.
-/

set_option autoImplicit false

namespace MixVerify

/-- Audio sample format tag; `spec.AudioFormat` is a string type in the Go
source. -/
abbrev AudioFormat := String

/-- Modelled from the spec: the seven valid sample formats
`{U8, S8, U16, S16, S32, F32, F64}` (the `spec` package is not among the
sources; the set is fixed by the data model section). -/
def validFormats : List AudioFormat := ["U8", "S8", "U16", "S16", "S32", "F32", "F64"]

/-- `spec.AudioSpec`: the output format descriptor — frequency in Hz,
sample format, channel count. -/
structure AudioSpec where
  Freq : ℚ
  Format : AudioFormat
  Channels : ℤ
deriving DecidableEq

/-- The Go zero value `spec.AudioSpec{}` returned by reference from
`bind.LoadWAV`'s default branch. -/
def emptyAudioSpec : AudioSpec := ⟨0, "", 0⟩

/-- Modelled from the spec: `spec.Validate` (not among the sources) rejects
an `AudioSpec` exactly when `freq ≤ 0`, the format is unknown, or
`channels < 1` (the spec's `ConfigError` conditions). -/
def validSpec (s : AudioSpec) : Bool :=
  decide (0 < s.Freq) && decide (s.Format ∈ validFormats) && decide (1 ≤ s.Channels)

/-- One sample frame: the per-channel float64 amplitudes (`sample.Sample`). -/
abbrev Sample := List ℚ

namespace Bind

/-- `opt.Input`: the loader selector, a string type in the Go source. -/
abbrev Input := String

/-- `opt.Output`: the output selector, a string type in the Go source. -/
abbrev Output := String

/-- Modelled from the spec: the loader selector constant for the WAV loader;
the CLI surface is `--loader {wav|sox}` (the `opt` package is not among the
sources). -/
def InputWAV : Input := "wav"

/-- Modelled from the spec: the loader selector constant for the SoX loader. -/
def InputSOX : Input := "sox"

/-- Modelled from the spec: the output selector constant for the WAV driver;
the CLI surface is `--out {null|wav}`. -/
def OutputWAV : Output := "wav"

/-- Modelled from the spec: the output selector constant for the Null driver. -/
def OutputNull : Output := "null"

/-- The `bind` package's private selection state: the package variables
`useLoader` and `useOutput`. -/
structure BindState where
  useLoader : Input
  useOutput : Output
deriving DecidableEq

/-- The initial values of the package variables:
`useLoader = opt.InputWAV` and `useOutput = opt.OutputNull`. -/
def initialBindState : BindState := ⟨InputWAV, OutputNull⟩

/-- `bind.IsDirectOutput`: whether the selected output is the WAV driver. -/
def IsDirectOutput (st : BindState) : Bool := decide (st.useOutput = OutputWAV)

/-- Outcome of a Go call that either returns normally or panics; a panic
unwinds the calling operation. -/
inductive CallResult (α : Type) where
  | ok (value : α)
  | crashed (msg : String)
deriving DecidableEq

/-- `bind.UseLoaderString`: selects the file loading interface by string;
panics on an unknown name. -/
def UseLoaderString (loader : String) (st : BindState) : CallResult BindState :=
  if loader = InputWAV then CallResult.ok { st with useLoader := InputWAV }
  else if loader = InputSOX then CallResult.ok { st with useLoader := InputSOX }
  else CallResult.crashed ("No such Loader: " ++ loader)

/-- The package state as observed after `UseLoaderString`: a panic unwinds
before any assignment, so the state is unchanged on the crash path. -/
def UseLoaderStringRun (loader : String) (st : BindState) : BindState :=
  match UseLoaderString loader st with
  | CallResult.ok st2 => st2
  | CallResult.crashed _ => st

/-- `bind.UseOutputString`: selects the output interface by string; panics
on an unknown name. -/
def UseOutputString (output : String) (st : BindState) : CallResult BindState :=
  if output = OutputWAV then CallResult.ok { st with useOutput := OutputWAV }
  else if output = OutputNull then CallResult.ok { st with useOutput := OutputNull }
  else CallResult.crashed ("No such Output: " ++ output)

/-- The package state as observed after `UseOutputString`. -/
def UseOutputStringRun (output : String) (st : BindState) : BindState :=
  match UseOutputString output st with
  | CallResult.ok st2 => st2
  | CallResult.crashed _ => st

/-- A loader implementation (`wav.Load` or `sox.Load`): a path yields the
decoded samples and the native spec, or a panic. -/
abbrev Loader := String → CallResult (List Sample × AudioSpec)

/-- `bind.LoadWAV`: dispatches on `useLoader`; its `default` branch returns
an empty buffer and the zero `AudioSpec` without invoking any loader. -/
def LoadWAV (wavLoad soxLoad : Loader) (st : BindState) (file : String) :
    CallResult (List Sample × AudioSpec) :=
  if st.useLoader = InputWAV then wavLoad file
  else if st.useLoader = InputSOX then soxLoad file
  else CallResult.ok ([], emptyAudioSpec)

/-- The WAV output driver interface consumed by `bind` (`wav.OutputStart`,
`wav.OutputNext`, `wav.TeardownOutput`).  Its implementation is external to
the sources, so `bind`'s dispatch is embedded parametrically over it; `ω`
is the driver's world — its own state together with every byte sink it can
write to. -/
structure WavDriver (ω : Type) where
  outputStart : ℚ → ℕ → ω → ω
  outputNext : ℕ → ω → ω
  teardownOutput : ω → ω

/-- `bind.OutputStart`: switch on `useOutput` — the WAV case delegates to
the driver, the Null case does nothing. -/
def OutputStart {ω : Type} (impl : WavDriver ω) (length : ℚ) (out : ℕ)
    (st : BindState) (w : ω) : ω :=
  if st.useOutput = OutputWAV then impl.outputStart length out w
  else if st.useOutput = OutputNull then w
  else w

/-- `bind.OutputNext`: switch on `useOutput` — WAV delegates, Null does
nothing. -/
def OutputNext {ω : Type} (impl : WavDriver ω) (numSamples : ℕ)
    (st : BindState) (w : ω) : ω :=
  if st.useOutput = OutputWAV then impl.outputNext numSamples w
  else if st.useOutput = OutputNull then w
  else w

/-- `bind.Teardown`: switch on `useOutput` — WAV delegates to
`wav.TeardownOutput`, Null does nothing. -/
def Teardown {ω : Type} (impl : WavDriver ω) (st : BindState) (w : ω) : ω :=
  if st.useOutput = OutputWAV then impl.teardownOutput w
  else if st.useOutput = OutputNull then w
  else w

end Bind

namespace Wav

/-- `SourceLoadError` from the spec's error design: a structured error kind
wrapping loader failures, surfaced to the host. -/
inductive SourceLoadError where
  | notFound (path : String)
  | decodeError (msg : String)
  | specInvalid
deriving DecidableEq

/-- Outcome of a host-thread load operation: a normal return, a structured
error surfaced to the host, or a Go panic crashing the calling operation. -/
inductive LoadOutcome (α : Type) where
  | ok (value : α)
  | hostError (e : SourceLoadError)
  | crashed (msg : String)
deriving DecidableEq

/-- Whether an outcome is a structured error result surfaced to the host. -/
def LoadOutcome.isHostError {α : Type} : LoadOutcome α → Bool
  | LoadOutcome.hostError _ => true
  | _ => false

/-- Modelled from the spec: the view of a WAV file that `NewReader` and
`ReadSamples` (not among the sources) expose to `wav.Load` — the header
fields, whether `NewReader` succeeds, and the successive `ReadSamples`
chunks until `io.EOF`. -/
structure WavFile where
  sampleRate : ℕ
  audioFormat : AudioFormat
  numChannels : ℕ
  decodeOk : Bool
  chunks : List (List Sample)
deriving DecidableEq

/-- The file system visible to `os.Stat` and `os.Open`: paths to WAV files. -/
abbrev FS := String → Option WavFile

/-- The accumulation loop in `wav.Load`: `out = append(out, samples...)` for
each `ReadSamples` result, until `io.EOF` breaks the loop. -/
def readAllSamples : List (List Sample) → List Sample
  | [] => []
  | chunk :: rest => chunk ++ readAllSamples rest

/-- `wav.Load`: panics with `"File not found: " ++ path` when `os.Stat`
reports not-exist; panics when `NewReader` fails; otherwise builds the
native spec from the header (`SampleRate`, `AudioFormat`, `NumChannels`)
and concatenates every `ReadSamples` chunk until EOF. -/
def Load (fs : FS) (path : String) : LoadOutcome (List Sample × AudioSpec) :=
  match fs path with
  | none => LoadOutcome.crashed ("File not found: " ++ path)
  | some f =>
    if f.decodeOk then
      LoadOutcome.ok (readAllSamples f.chunks,
        ⟨(f.sampleRate : ℚ), f.audioFormat, (f.numChannels : ℤ)⟩)
    else LoadOutcome.crashed "wav decode error"

end Wav

namespace Engine

/-- `ConfigError` from the spec's error design: an invalid `AudioSpec`. -/
inductive ConfigError where
  | invalidSpec
deriving DecidableEq

/-- The state touched by the facade `mix.Configure`: the sample-package
output callback, the bound output driver's configuration, and the mix
engine's configuration. -/
structure MixerState where
  outputCallbackSet : Bool
  bindSpec : Option AudioSpec
  mixSpec : Option AudioSpec
deriving DecidableEq

/-- `mix.Configure` (facade, `mix.go`): validates the spec, then sets the
output callback, configures the bound driver, and configures the engine,
in that order — so a validation failure aborts before any mutation.
`spec.Validate` is modelled from the spec (`validSpec`). -/
def Configure (s : AudioSpec) (st : MixerState) : Except ConfigError MixerState :=
  if validSpec s then
    Except.ok { st with outputCallbackSet := true, bindSpec := some s, mixSpec := some s }
  else
    Except.error ConfigError.invalidSpec

/-- The state observed by the host after calling `Configure`: unchanged when
the call aborts with a `ConfigError`. -/
def ConfigureRun (s : AudioSpec) (st : MixerState) : MixerState :=
  match Configure s st with
  | Except.ok st2 => st2
  | Except.error _ => st

/-- Offline-mode rendering state: the total frame count precomputed at
`OutputStart` and the number of frames rendered and written so far. -/
structure OfflineState where
  totalFrames : ℤ
  written : ℤ
deriving DecidableEq

/-- Modelled from the spec: `output_start(length, writer)` binds the writer,
precomputes the total frame count `round(length · freq)` (the data model's
duration conversion), and starts the pure offline counter at 0 (`lib/mix`
is not among the sources). -/
def OutputStart (freq length : ℚ) : OfflineState :=
  ⟨round (length * freq), 0⟩

/-- Modelled from the spec: `output_continue_to(t)` renders frames up to
sample index `⌊t · freq⌋` and writes them; the counter never decreases. -/
def OutputContinueTo (freq t : ℚ) (st : OfflineState) : OfflineState :=
  { st with written := max st.written ⌊t * freq⌋ }

/-- Modelled from the spec: `output_close()` finalizes the writer (patches
the WAV header sizes); it renders no further frames.  Returns the final
state and the total number of frames emitted. -/
def OutputClose (st : OfflineState) : OfflineState × ℤ :=
  (st, st.written)

/-- Frames emitted by the offline pipeline
`output_start(length) ; output_continue_to(length) ; output_close()`. -/
def offlineRunFrames (freq length : ℚ) : ℤ :=
  (OutputClose (OutputContinueTo freq length (OutputStart freq length))).2

/-- The master clock states of the spec's state machine. -/
inductive ClockMode where
  | unstarted
  | runningRT
  | runningOffline
  | tornDown
deriving DecidableEq

/-- The master clock: the mode and the real-time epoch `T0` in wall-clock
seconds. -/
structure ClockState where
  mode : ClockMode
  epoch : ℚ
deriving DecidableEq

/-- Modelled from the spec: `mix.StartAt(T0)` enters real-time Running with
epoch `T0` (`lib/mix` is not among the sources). -/
def StartAt (t : ℚ) (st : ClockState) : ClockState :=
  { st with mode := ClockMode.runningRT, epoch := t }

/-- `mix.Start` (facade, `mix.go`): defined as `mix.StartAt(time.Now())`;
the ambient wall-clock reading is passed explicitly. -/
def Start (now : ℚ) (st : ClockState) : ClockState :=
  StartAt now st

/-- Modelled from the spec: in real-time mode
`now_samples(t_wall) = max(0, round((t_wall − T0) · freq))`. -/
def nowSamples (freq : ℚ) (st : ClockState) (tWall : ℚ) : ℤ :=
  max 0 (round ((tWall - st.epoch) * freq))

/-- Modelled from the spec: the loudness compressor curve.  The spec fixes
only the contract — monotone, smooth, unity gain for small input and
`|y| ≤ 1.0`, with the curve itself implementation-defined ("implementers
may choose any curve meeting the monotonic, smooth, ≤1.0 properties") —
so the baseline curve `s / (1 + |s|)` is taken. -/
def compress (s : ℚ) : ℚ := s / (1 + |s|)

/-- The per-channel raw sum of the live fires' gain-weighted contributions
(step 3 of the per-frame pipeline). -/
def rawSum (contribs : List ℚ) : ℚ := List.foldl (fun a b => a + b) 0 contribs

/-- Steps 4–5 of the per-frame pipeline: the compressor applied to each
channel of the raw sum frame, yielding the emitted output frame. -/
def mixNextOutFrame (sums : List ℚ) : List ℚ := List.map compress sums

end Engine

/-! ### Theorems -/

/-- A helper for C5: the `wav.Load` accumulation loop concatenates the
`ReadSamples` chunks in order. -/
theorem readAllSamples_eq_join (chunks : List (List Sample)) :
    Wav.readAllSamples chunks = chunks.flatten := by
  induction chunks with
  | nil => rfl
  | cons c rest ih => simp [Wav.readAllSamples, ih]

/-- Claim C1: every channel sample emitted by the loudness compressor
satisfies `|y| ≤ 1`, for every raw input frame — hence in particular for
the summed contributions of any number of full-volume fires. -/
theorem compressor_output_ceiling (sums : List ℚ) (y : ℚ)
    (hy : y ∈ Engine.mixNextOutFrame sums) : |y| ≤ 1 := by
  rcases List.mem_map.mp hy with ⟨s, -, rfl⟩
  have hpos : (0 : ℚ) < 1 + |s| := by positivity
  simp only [Engine.compress]
  rw [abs_div, abs_of_pos hpos, div_le_one hpos]
  linarith [abs_nonneg s]

/-- Claim C1 witness: the compressed sum of one hundred full-volume fire
contributions on one channel stays within the ceiling. -/
theorem compressor_output_ceiling_witness :
    Engine.compress (Engine.rawSum (List.replicate 100 1)) ∈
      Engine.mixNextOutFrame [Engine.rawSum (List.replicate 100 1)]
    ∧ |Engine.compress (Engine.rawSum (List.replicate 100 1))| ≤ 1 :=
  ⟨by simp [Engine.mixNextOutFrame],
   compressor_output_ceiling [Engine.rawSum (List.replicate 100 1)] _
     (by simp [Engine.mixNextOutFrame])⟩

/-- Claim C2 counterexample: at `freq = 2` Hz and `length = 1/4` s the
offline pipeline emits `⌊1/2⌋ = 0` frames, while `round(length · freq) = 1`. -/
theorem offline_frame_count_counterexample :
    Engine.offlineRunFrames 2 (1/4) = 0 ∧ round ((1/4 : ℚ) * 2) = 1 := by
  have h1 : ((1 : ℚ)/4) * 2 = 1/2 := by norm_num
  constructor
  · simp only [Engine.offlineRunFrames, Engine.OutputStart, Engine.OutputContinueTo,
      Engine.OutputClose, h1]
    have h2 : ⌊(1/2 : ℚ)⌋ = 0 := by
      rw [Int.floor_eq_zero_iff]
      constructor <;> norm_num
    rw [h2]
    rfl
  · rw [h1, round_eq]
    norm_num

/-- Claim C2 (amended): in offline mode the pipeline
`output_start(length) ; output_continue_to(length) ; output_close()`
emits exactly `⌊length · freq⌋` frames. -/
theorem offline_frame_count (freq length : ℚ) (hf : 0 ≤ freq) (hl : 0 ≤ length) :
    Engine.offlineRunFrames freq length = ⌊length * freq⌋ := by
  have h0 : (0 : ℤ) ≤ ⌊length * freq⌋ := Int.floor_nonneg.mpr (mul_nonneg hl hf)
  simp [Engine.offlineRunFrames, Engine.OutputStart, Engine.OutputContinueTo,
    Engine.OutputClose, max_eq_right h0]

/-- Claim C2 witness: at `freq = 48000` Hz and `length = 3` s the offline
pipeline emits `⌊3 · 48000⌋` frames. -/
theorem offline_frame_count_witness :
    Engine.offlineRunFrames 48000 3 = ⌊(3 : ℚ) * 48000⌋ :=
  offline_frame_count 48000 3 (by norm_num) (by norm_num)

/-- Claim C3: `Configure` with an invalid `AudioSpec` (freq ≤ 0, unknown
format, or channels < 1) fails with `ConfigError` and mutates nothing. -/
theorem configure_invalid_spec (s : AudioSpec) (st : Engine.MixerState)
    (h : s.Freq ≤ 0 ∨ s.Format ∉ validFormats ∨ s.Channels < 1) :
    Engine.Configure s st = Except.error Engine.ConfigError.invalidSpec
    ∧ Engine.ConfigureRun s st = st := by
  have hv : validSpec s = false := by
    rcases h with h | h | h
    · have hd : decide (0 < s.Freq) = false := decide_eq_false (not_lt.mpr h)
      simp [validSpec, hd]
    · have hd : decide (s.Format ∈ validFormats) = false := decide_eq_false h
      simp [validSpec, hd]
    · have hd : decide (1 ≤ s.Channels) = false := decide_eq_false (not_le.mpr h)
      simp [validSpec, hd]
  refine ⟨?_, ?_⟩
  · simp [Engine.Configure, hv]
  · simp [Engine.ConfigureRun, Engine.Configure, hv]

/-- Claim C3 witness: configuring with a zero frequency aborts with
`ConfigError` and leaves the fresh state untouched. -/
theorem configure_invalid_spec_witness :
    Engine.Configure ⟨0, "F32", 2⟩ ⟨false, none, none⟩
        = Except.error Engine.ConfigError.invalidSpec
    ∧ Engine.ConfigureRun ⟨0, "F32", 2⟩ ⟨false, none, none⟩ = ⟨false, none, none⟩ :=
  configure_invalid_spec ⟨0, "F32", 2⟩ ⟨false, none, none⟩ (Or.inl le_rfl)

/-- Claim C4 counterexample: loading a path absent from the file system
panics with a "File not found" message; no structured host error is
returned. -/
theorem load_not_found_counterexample :
    Wav.Load (fun _ => none) "missing.wav"
        = Wav.LoadOutcome.crashed "File not found: missing.wav"
    ∧ (Wav.Load (fun _ => none) "missing.wav").isHostError = false := by
  constructor
  · rfl
  · rfl

/-- Claim C4 (amended): for every path naming a file that does not exist,
`wav.Load` panics with message `"File not found: " ++ path`, crashing the
calling operation instead of returning a structured error result. -/
theorem load_not_found_crashes (fs : Wav.FS) (path : String) (h : fs path = none) :
    Wav.Load fs path = Wav.LoadOutcome.crashed ("File not found: " ++ path) := by
  simp [Wav.Load, h]

/-- Claim C4 witness: loading from the empty file system panics. -/
theorem load_not_found_crashes_witness :
    Wav.Load (fun _ => none) "nosuch.wav"
        = Wav.LoadOutcome.crashed ("File not found: " ++ "nosuch.wav") :=
  load_not_found_crashes (fun _ => none) "nosuch.wav" rfl

/-- Claim C5: for every WAV file that exists and decodes, `wav.Load`
returns the native spec built from the file header's sample rate, audio
format and channel count, and the ordered concatenation of all sample
frames read until EOF. -/
theorem load_ok (fs : Wav.FS) (path : String) (f : Wav.WavFile)
    (hf : fs path = some f) (hd : f.decodeOk = true) :
    Wav.Load fs path = Wav.LoadOutcome.ok (f.chunks.flatten,
      ⟨(f.sampleRate : ℚ), f.audioFormat, (f.numChannels : ℤ)⟩) := by
  simp [Wav.Load, hf, hd, readAllSamples_eq_join]

/-- A concrete decoded WAV file for the C5 witness. -/
def demoFile : Wav.WavFile :=
  ⟨48000, "F32", 2, true, [[[(1 : ℚ)/2, 1/2]], [[0, 0]]]⟩

/-- A concrete file system holding `demoFile` at key `"a.wav"`. -/
def demoFS : Wav.FS := fun p => if p = "a.wav" then some demoFile else none

/-- Claim C5 witness: loading the concrete file returns its header spec and
the concatenation of its chunks. -/
theorem load_ok_witness :
    Wav.Load demoFS "a.wav" = Wav.LoadOutcome.ok (demoFile.chunks.flatten,
      ⟨(demoFile.sampleRate : ℚ), demoFile.audioFormat, (demoFile.numChannels : ℤ)⟩) :=
  load_ok demoFS "a.wav" demoFile rfl rfl

/-- Claim C6: `Start()` equals `StartAt` at the current wall-clock reading;
both enter real-time Running with epoch `T0 = now`, after which
`now_samples(t_wall) = max(0, round((t_wall − T0) · freq))`. -/
theorem start_equiv_startAt (now tWall freq : ℚ) (st : Engine.ClockState) :
    Engine.Start now st = Engine.StartAt now st
    ∧ (Engine.Start now st).mode = Engine.ClockMode.runningRT
    ∧ (Engine.Start now st).epoch = now
    ∧ Engine.nowSamples freq (Engine.Start now st) tWall
        = max 0 (round ((tWall - now) * freq)) := by
  refine ⟨rfl, rfl, rfl, ?_⟩
  simp [Engine.nowSamples, Engine.Start, Engine.StartAt]

/-- Claim C7: with the Null output binding, `OutputStart`, `OutputNext` and
`Teardown` leave the world — the driver state and every writer — unchanged,
for every driver implementation. -/
theorem null_output_no_effect {ω : Type} (impl : Bind.WavDriver ω) (length : ℚ)
    (out numSamples : ℕ) (st : Bind.BindState) (w : ω)
    (h : st.useOutput = Bind.OutputNull) :
    Bind.OutputStart impl length out st w = w
    ∧ Bind.OutputNext impl numSamples st w = w
    ∧ Bind.Teardown impl st w = w := by
  have hne : st.useOutput ≠ Bind.OutputWAV := by
    rw [h]; decide
  refine ⟨?_, ?_, ?_⟩
  · unfold Bind.OutputStart
    rw [if_neg hne, if_pos h]
  · unfold Bind.OutputNext
    rw [if_neg hne, if_pos h]
  · unfold Bind.Teardown
    rw [if_neg hne, if_pos h]

/-- Claim C7 witness: a counting driver implementation sees no call when the
freshly initialized binding (Null output) is active. -/
theorem null_output_no_effect_witness :
    Bind.OutputStart ⟨fun _ _ n => n + 1, fun _ n => n + 1, fun n => n + 1⟩
        1 0 Bind.initialBindState (0 : ℕ) = 0
    ∧ Bind.OutputNext ⟨fun _ _ n => n + 1, fun _ n => n + 1, fun n => n + 1⟩
        5 Bind.initialBindState (0 : ℕ) = 0
    ∧ Bind.Teardown ⟨fun _ _ n => n + 1, fun _ n => n + 1, fun n => n + 1⟩
        Bind.initialBindState (0 : ℕ) = 0 :=
  null_output_no_effect ⟨fun _ _ n => n + 1, fun _ n => n + 1, fun n => n + 1⟩
    1 0 5 Bind.initialBindState 0 rfl

/-- Claim C8: string binding selection fails exactly on unknown names — any
loader name other than "wav"/"sox" and any output name other than
"wav"/"null" panics and leaves the binding unchanged, while each known name
succeeds and selects its binding. -/
theorem use_string_unknown (s t : String) (st : Bind.BindState)
    (hs1 : s ≠ Bind.InputWAV) (hs2 : s ≠ Bind.InputSOX)
    (ht1 : t ≠ Bind.OutputWAV) (ht2 : t ≠ Bind.OutputNull) :
    Bind.UseLoaderString s st = Bind.CallResult.crashed ("No such Loader: " ++ s)
    ∧ Bind.UseLoaderStringRun s st = st
    ∧ Bind.UseOutputString t st = Bind.CallResult.crashed ("No such Output: " ++ t)
    ∧ Bind.UseOutputStringRun t st = st
    ∧ Bind.UseLoaderString Bind.InputWAV st
        = Bind.CallResult.ok { st with useLoader := Bind.InputWAV }
    ∧ Bind.UseLoaderString Bind.InputSOX st
        = Bind.CallResult.ok { st with useLoader := Bind.InputSOX }
    ∧ Bind.UseOutputString Bind.OutputWAV st
        = Bind.CallResult.ok { st with useOutput := Bind.OutputWAV }
    ∧ Bind.UseOutputString Bind.OutputNull st
        = Bind.CallResult.ok { st with useOutput := Bind.OutputNull } := by
  have e1 : Bind.UseLoaderString s st
      = Bind.CallResult.crashed ("No such Loader: " ++ s) := by
    unfold Bind.UseLoaderString
    rw [if_neg hs1, if_neg hs2]
  have e2 : Bind.UseOutputString t st
      = Bind.CallResult.crashed ("No such Output: " ++ t) := by
    unfold Bind.UseOutputString
    rw [if_neg ht1, if_neg ht2]
  refine ⟨e1, ?_, e2, ?_, ?_, ?_, ?_, ?_⟩
  · unfold Bind.UseLoaderStringRun
    rw [e1]
  · unfold Bind.UseOutputStringRun
    rw [e2]
  · rfl
  · rfl
  · rfl
  · rfl

/-- Claim C8 witness: the unknown names "midi" and "alsa" panic and leave
the fresh binding state unchanged, while the known names succeed. -/
theorem use_string_unknown_witness :
    Bind.UseLoaderString "midi" Bind.initialBindState
        = Bind.CallResult.crashed ("No such Loader: " ++ "midi")
    ∧ Bind.UseLoaderStringRun "midi" Bind.initialBindState = Bind.initialBindState
    ∧ Bind.UseOutputString "alsa" Bind.initialBindState
        = Bind.CallResult.crashed ("No such Output: " ++ "alsa")
    ∧ Bind.UseOutputStringRun "alsa" Bind.initialBindState = Bind.initialBindState
    ∧ Bind.UseLoaderString Bind.InputWAV Bind.initialBindState
        = Bind.CallResult.ok { Bind.initialBindState with useLoader := Bind.InputWAV }
    ∧ Bind.UseLoaderString Bind.InputSOX Bind.initialBindState
        = Bind.CallResult.ok { Bind.initialBindState with useLoader := Bind.InputSOX }
    ∧ Bind.UseOutputString Bind.OutputWAV Bind.initialBindState
        = Bind.CallResult.ok { Bind.initialBindState with useOutput := Bind.OutputWAV }
    ∧ Bind.UseOutputString Bind.OutputNull Bind.initialBindState
        = Bind.CallResult.ok { Bind.initialBindState with useOutput := Bind.OutputNull } :=
  use_string_unknown "midi" "alsa" Bind.initialBindState
    (by decide) (by decide) (by decide) (by decide)

/-- Claim C9: the initial bindings default the loader to WAV and the output
to Null, so a freshly configured mixer performs no direct output and reads
sources via the WAV loader. -/
theorem initial_bindings :
    Bind.initialBindState.useLoader = Bind.InputWAV
    ∧ Bind.initialBindState.useOutput = Bind.OutputNull
    ∧ Bind.IsDirectOutput Bind.initialBindState = false
    ∧ ∀ (wavLoad soxLoad : Bind.Loader) (file : String),
        Bind.LoadWAV wavLoad soxLoad Bind.initialBindState file = wavLoad file := by
  refine ⟨rfl, rfl, by decide, fun wavLoad soxLoad file => ?_⟩
  simp [Bind.LoadWAV, Bind.initialBindState]

/-- Claim C10: with a loader binding other than WAV and SOX, `LoadWAV`
returns normally with an empty sample buffer and the zero `AudioSpec`,
invoking neither loader (the result is independent of both). -/
theorem loadWAV_default (l : Bind.Input) (o : Bind.Output)
    (h1 : l ≠ Bind.InputWAV) (h2 : l ≠ Bind.InputSOX)
    (wavLoad soxLoad : Bind.Loader) (file : String) :
    Bind.LoadWAV wavLoad soxLoad ⟨l, o⟩ file
        = Bind.CallResult.ok ([], emptyAudioSpec) := by
  simp [Bind.LoadWAV, h1, h2]

/-- Claim C10 witness: with the unknown loader binding "midi", `LoadWAV`
returns the empty buffer and zero spec even though both loaders would
crash. -/
theorem loadWAV_default_witness :
    Bind.LoadWAV (fun p => Bind.CallResult.crashed p) (fun p => Bind.CallResult.crashed p)
        ⟨"midi", Bind.OutputNull⟩ "a.wav"
        = Bind.CallResult.ok ([], emptyAudioSpec) :=
  loadWAV_default "midi" Bind.OutputNull (by decide) (by decide)
    (fun p => Bind.CallResult.crashed p) (fun p => Bind.CallResult.crashed p) "a.wav"

end MixVerify
